import Mathlib

/-!
Verification of the attendance reconciliation engine of the
`unifi-access-attendance` repository, as a shallow embedding in Lean 4.

The embedding translates the TypeScript sources
(`src/services/AutomationService.ts`, `src/services/SchoolPassService.ts`,
`src/services/UnifiAccessService.ts`, `src/lib/SchoolPassAPI.ts`,
`src/lib/UnifiAccessAPI.ts`) into executable Lean definitions.  JavaScript
`Map` objects become association lists keyed by strings, `Set` objects become
duplicate-free lists, promises settled with `Promise.allSettled` become
per-element boolean outcomes supplied by an oracle, and the HTTP upstreams
become oracle functions supplied as parameters.
-/

namespace UnifiAttendance

/- ===== lib/SchoolPassAPI.ts : enums and data ===== -/

/-- `StudentAttendanceType` string enum from `lib/SchoolPassAPI.ts`. -/
inductive StudentAttendanceType where
  | Present
  | Absent
  | LateArrival
  | Virtual
deriving DecidableEq, Repr

/-- The string value carried by each `StudentAttendanceType` enum member. -/
def StudentAttendanceType.toStr : StudentAttendanceType → String
  | .Present => "Present"
  | .Absent => "Absent"
  | .LateArrival => "LateArrival"
  | .Virtual => "Virtual"

/-- Numeric values of the `StudentChangeType` enum (the `Abent` spelling is the
source's own). -/
def StudentChangeType.Abent : Nat := 1

/-- `StudentChangeType.LateArrival = 2` in `lib/SchoolPassAPI.ts`. -/
def StudentChangeType.LateArrival : Nat := 2

/-- `StudentChangeType.EarlyDismissal = 3` in `lib/SchoolPassAPI.ts`. -/
def StudentChangeType.EarlyDismissal : Nat := 3

/-- `StudentChangeType.Carpool = 4` in `lib/SchoolPassAPI.ts`. -/
def StudentChangeType.Carpool : Nat := 4

/-- `StudentChangeType.Activity = 5` in `lib/SchoolPassAPI.ts`. -/
def StudentChangeType.Activity : Nat := 5

/-- `StudentChangeType.Bus = 6` in `lib/SchoolPassAPI.ts`. -/
def StudentChangeType.Bus : Nat := 6

/- ===== services/SchoolPassService.ts : Student ===== -/

/-- The `Student` interface of `services/SchoolPassService.ts` (the fields the
engine reads). -/
structure Student where
  studentId : Nat
  externalId : String
  firstName : String
  lastName : String
  fullName : String
  attendanceStatus : String
deriving DecidableEq, Repr

/- ===== lib/UnifiAccessAPI.ts : actors and hits ===== -/

/-- `UnifiAccessActor` from `lib/UnifiAccessAPI.ts` (identifier fields plus the
display name). -/
structure UnifiAccessActor where
  id : String
  alternate_id : String
  display_name : String
deriving DecidableEq, Repr

/-- A door-log search hit: `UnifiAccessHit<UnifiAccessSystemLog>` flattened to
the `_source.actor` component that the engine reads. -/
structure DoorLog where
  actor : UnifiAccessActor
deriving DecidableEq, Repr

/- ===== JavaScript collection semantics ===== -/

/-- `String.prototype.toLowerCase`: lower-case every character. -/
def jsToLowerCase (s : String) : String :=
  ⟨s.data.map Char.toLower⟩

/-- `Map.prototype.set` / the `new Map(entries)` constructor: a duplicate key
overwrites the stored value in place, a fresh key is appended. -/
def mapSet (m : List (String × Student)) (k : String) (v : Student) :
    List (String × Student) :=
  if m.any (fun p => p.1 = k) then
    m.map (fun p => if p.1 = k then (k, v) else p)
  else
    m ++ [(k, v)]

/-- `Map.prototype.get`, returning `none` for a missing key. -/
def mapGet (m : List (String × Student)) (k : String) : Option Student :=
  (m.find? (fun p => p.1 = k)).map (fun p => p.2)

/-- `Map.prototype.delete`. -/
def mapDelete (m : List (String × Student)) (k : String) :
    List (String × Student) :=
  m.filter (fun p => ¬ p.1 = k)

/-- `new Set(list)`: deduplication preserving first occurrences. -/
def jsSet (l : List String) : List String :=
  l.foldl (fun acc x => if acc.contains x then acc else acc ++ [x]) []

/- ===== services/AutomationService.ts : runAttendance ===== -/

/-- `new Map(students.map(x => [x.fullName.toLowerCase(), x]))` from
`runAttendance` (`AutomationService.ts`). -/
def buildStudentMap (students : List Student) : List (String × Student) :=
  students.foldl (fun m s => mapSet m (jsToLowerCase s.fullName) s) []

/-- `logs.map(log => log._source.actor.display_name.toLowerCase())` from
`runAttendance` / `handleLateArrivals`. -/
def actorNames (logs : List DoorLog) : List String :=
  logs.map (fun l => (jsToLowerCase l.actor.display_name))

/-- The deletion loop `for (const name of actors) if (studentMap.has(name))
studentMap.delete(name)` of `runAttendance`: entries whose key occurs among
the actor names are removed. -/
def deleteActors (m : List (String × Student)) (actors : List String) :
    List (String × Student) :=
  m.filter (fun p => ¬ actors.contains p.1)

/-- The `AbsentSet` left in `studentMap` after `runAttendance`'s deletion
loop. -/
def absentSetAfterRun (students : List Student) (logs : List DoorLog) :
    List (String × Student) :=
  deleteActors (buildStudentMap students) (actorNames logs)

/-- `present = totalStudents - absent` as computed by `runAttendance`. -/
def presentCount (students : List Student) (logs : List DoorLog) : Nat :=
  (buildStudentMap students).length - (absentSetAfterRun students logs).length

/-- A call to `SchoolPassService.markStudents(type, students)`. -/
structure MarkCall where
  type : StudentAttendanceType
  students : List Student
deriving DecidableEq, Repr

/-- The externally visible outcome of one `runAttendance` invocation: the
attendance write calls it issues and whether it schedules the
"Late Arrivals Handler" sweep job. -/
structure RunOutcome where
  markCalls : List MarkCall
  sweepScheduled : Bool
deriving DecidableEq, Repr

/-- The threshold branch of `runAttendance` (`AutomationService.ts`): below
the threshold only a warning is logged; otherwise the absent set is written
as `Absent` and the late-arrival sweep job is scheduled. -/
def runAttendance (threshold : Nat) (students : List Student)
    (logs : List DoorLog) : RunOutcome :=
  let absentSet := absentSetAfterRun students logs
  if presentCount students logs < threshold then
    { markCalls := [], sweepScheduled := false }
  else
    { markCalls := [⟨StudentAttendanceType.Absent, absentSet.map (fun p => p.2)⟩],
      sweepScheduled := true }

/- ===== services/AutomationService.ts : handleLateArrivals ===== -/

/-- The matching loop of `handleLateArrivals`: iterate the actor names, and
for each name found in the absent map push the student onto `present` and
delete the entry.  Returns the promoted students (in actor order) and the
remaining absent map. -/
def lateArrivalLoop :
    List String → List (String × Student) → List Student × List (String × Student)
  | [], m => ([], m)
  | name :: rest, m =>
    match mapGet m name with
    | some s =>
      let r := lateArrivalLoop rest (mapDelete m name)
      (s :: r.1, r.2)
    | none => lateArrivalLoop rest m

/-- Outcome of one tick of `handleLateArrivals`. -/
structure TickResult where
  promoted : List Student
  absent : List (String × Student)
  markCall : MarkCall
  cancelled : Bool
deriving DecidableEq, Repr

/-- One tick of `handleLateArrivals` (`AutomationService.ts`): compute the
distinct actor names of the window's door logs, promote every matching absent
student, issue `markStudents(StudentAttendanceType.Present, present)`, and
cancel the job when the absent map has emptied. -/
def handleLateArrivals (absentStudents : List (String × Student))
    (logs : List DoorLog) : TickResult :=
  let actors := jsSet (actorNames logs)
  let r := lateArrivalLoop actors absentStudents
  { promoted := r.1
    absent := r.2
    markCall := ⟨StudentAttendanceType.Present, r.1⟩
    cancelled := r.2.length < 1 }

/-- The absent map after a whole sequence of sweep ticks, each tick fed one
batch of door logs. -/
def sweepAbsent (absent : List (String × Student)) :
    List (List DoorLog) → List (String × Student)
  | [] => absent
  | batch :: rest => sweepAbsent (handleLateArrivals absent batch).absent rest

/- ===== services/SchoolPassService.ts : markStudents ===== -/

/-- One element of `StudentCalender.dailyList` (`lib/SchoolPassAPI.ts`);
`changeSeriesId` may be `null`. -/
structure StudentCalendarChange where
  adType : Nat
  changeId : Nat
  changeSeriesId : Option Nat
  description : String
  isDefault : Bool
  moveToId : Nat
  studentChangeType : Nat
deriving DecidableEq, Repr

/-- An existing `StudentChange` series (the fields the engine reads). -/
structure StudentChange where
  changeType : Nat
  notes : String
  seriesId : Nat
deriving DecidableEq, Repr

/-- The `CachedChange` cache entry of `services/SchoolPassService.ts`; the
`series` lookup `changes.find(...)` may come back `undefined`. -/
structure CachedChange where
  change : StudentCalendarChange
  series : Option StudentChange
deriving DecidableEq, Repr

/-- The JavaScript `in` operator applied to an array literal: `x in arr` tests
whether `x` is a valid *index* (property key) of the array, i.e. whether
`x < arr.length` for a natural number `x` — not value membership. -/
def jsInArrayIndex (x : Nat) (arr : List Nat) : Bool :=
  decide (x < arr.length)

/-- The restoration gate of `markStudents` (`services/SchoolPassService.ts`):
`type !== StudentAttendanceType.Absent && cachedChange &&
cachedChange.change.studentChangeType in [StudentChangeType.Bus]`. -/
def restorationGate (type : StudentAttendanceType)
    (cachedChange : Option CachedChange) : Bool :=
  match cachedChange with
  | none => false
  | some c =>
    decide (type ≠ StudentAttendanceType.Absent) &&
      jsInArrayIndex c.change.studentChangeType [StudentChangeType.Bus]

/-- How one student's promise is produced inside `markStudents`'s loop:
either the "already in target status" short-circuit (a promise resolved on
the spot), the dry-run log (also resolved on the spot), or a real
`setStudentAttendance` write. -/
inductive StudentPromise where
  | alreadyMarked
  | dryRunLogged
  | write (type : StudentAttendanceType) (studentId : Nat)
deriving DecidableEq, Repr

/-- The per-student branch of `markStudents`'s loop that decides which promise
is pushed: skip when `student.attendanceStatus === type`, otherwise a dry-run
log or a remote write. -/
def markAction (dryRun : Bool) (type : StudentAttendanceType) (s : Student) :
    StudentPromise :=
  if s.attendanceStatus = type.toStr then .alreadyMarked
  else if dryRun then .dryRunLogged
  else .write type s.studentId

/-- `Promise.allSettled` outcome of one pushed promise: the two locally
resolved promises always fulfil; a remote write fulfils or rejects according
to the upstream, modelled by `oracle` on the student id. -/
def settlePromise (oracle : Nat → Bool) : StudentPromise → Bool
  | .alreadyMarked => true
  | .dryRunLogged => true
  | .write _ sid => oracle sid

/-- The `MarkResult` interface of `services/SchoolPassService.ts`. -/
structure MarkResult where
  success : Nat
  failure : Nat
  total : Nat
deriving DecidableEq, Repr

/-- The promises pushed by `markStudents`'s loop, in student order (one per
supplied student). -/
def markPromises (dryRun : Bool) (type : StudentAttendanceType)
    (students : List Student) : List StudentPromise :=
  students.map (markAction dryRun type)

/-- `markStudents` result aggregation (`services/SchoolPassService.ts`):
`Promise.allSettled(promises)` is tallied into
`{ success, failure, total := results.length }`. -/
def markStudents (dryRun : Bool) (oracle : Nat → Bool)
    (type : StudentAttendanceType) (students : List Student) : MarkResult :=
  let results :=
    (markPromises dryRun type students).map (settlePromise oracle)
  { success := results.count true
    failure := results.count false
    total := results.length }

/- ===== lib/SchoolPassAPI.ts : response error interceptor ===== -/

/-- The retry bookkeeping axios carries on a request config object.
`_retry401` is only ever truth-tested, so the JS `undefined` initial value
behaves as `false`; `_retry500` is compared with `<`, where `undefined`
matters, so it is kept as an `Option`: the source never initializes it. -/
structure RequestState where
  retry401 : Bool
  retry500 : Option Nat
deriving DecidableEq, Repr

/-- A fresh axios request config: neither `_retry401` nor `_retry500` has been
set (both are `undefined` in the source). -/
def freshRequest : RequestState :=
  { retry401 := false, retry500 := none }

/-- JavaScript `<` between a possibly-`undefined` number and a number:
`undefined < n` is `false` (NaN comparison). -/
def jsLtNat : Option Nat → Nat → Bool
  | none, _ => false
  | some a, b => decide (a < b)

/-- What the response error interceptor decides to do with a failed
response. -/
inductive InterceptorAction where
  | retryWithRefreshedToken
  | retryAfterMs (ms : Nat)
  | surfaceError
deriving DecidableEq, Repr

/-- The response error interceptor installed by
`SchoolPassAPI.initAxiosInstance` (`lib/SchoolPassAPI.ts`): 401 with the
`_retry401` flag unset refreshes the token and retries once; 429 waits
`(retry-after + 3)` seconds and retries; 500 with `_retry500 < 3` waits
`1000 + Math.floor(Math.random() * 10000)` milliseconds and retries;
everything else rethrows the error.  `rand` stands for the value of
`Math.floor(Math.random() * 10000)`, so `rand % 10000` is its range. -/
def errorInterceptor (status : Nat) (req : RequestState)
    (retryAfterHeader : Nat) (rand : Nat) : InterceptorAction :=
  if status = 401 ∧ req.retry401 = false then
    .retryWithRefreshedToken
  else if status = 429 then
    .retryAfterMs ((retryAfterHeader + 3) * 1000)
  else if status = 500 ∧ jsLtNat req.retry500 3 = true then
    .retryAfterMs (1000 + rand % 10000)
  else
    .surfaceError

/- ===== services/UnifiAccessService.ts : getDoorLogs ===== -/

/-- The extra page numbers fetched by `getDoorLogs`'s loop
`for (; pageNum < Math.ceil(total / pageSize) + 1; pageNum++)` with
`pageNum` starting at 2 and `pageSize = 50`: pages `2 .. ceil(total/50)`. -/
def extraPageNums (total : Nat) : List Nat :=
  List.range' 2 ((total + 49) / 50 + 1 - 2)

/-- Every page number `getDoorLogs` requests, in request order: the first
page, then the loop's pages.  `firstTotal` is `data.pagination?.total` of the
first page's response (`none` when the response has no pagination object);
the source reads it as `data.pagination?.total || 0`. -/
def requestedPages (firstTotal : Option Nat) : List Nat :=
  1 :: extraPageNums (firstTotal.getD 0)

/-- `UnifiAccessService.getDoorLogs`: fetch page 1, read the pagination
total, fetch pages `2 .. ceil(total/50)` and concatenate their hits after the
first page's hits.  `server` models `unifiAccess.getSystemLogs` restricted to
the fixed topic/time-window options: the hits returned for each page
number. -/
def getDoorLogs (server : Nat → List DoorLog) (firstTotal : Option Nat) :
    List DoorLog :=
  let total := firstTotal.getD 0
  server 1 ++ (extraPageNums total).flatMap server

/- ===== Scheduler (AutomationService.scheduleJob) ===== -/

/-- Modelled from the spec: the name-keyed job registry and duplicate-name
check of the scheduling library invoked by `AutomationService.scheduleJob`;
the library's code is not under `src/`.  Per the spec, a job carries a unique
name and may have a pending invocation. -/
structure SchedJob where
  name : String
  pendingInvocation : Bool
deriving DecidableEq, Repr

/-- Modelled from the spec: `scheduleJob(name, …)` fails (returns `null`,
logs) when a job of the same name already has a pending invocation, leaving
the registry untouched; otherwise it cancels any existing non-pending job of
that name and installs the new one (which is immediately armed, i.e. has a
pending invocation). -/
def scheduleJobModel (registry : List SchedJob) (name : String) :
    Option SchedJob × List SchedJob :=
  match registry.find? (fun j => j.name = name) with
  | some j =>
    if j.pendingInvocation then
      (none, registry)
    else
      let newJob : SchedJob := { name := name, pendingInvocation := true }
      (some newJob, newJob :: registry.filter (fun j2 => ¬ j2.name = name))
  | none =>
    let newJob : SchedJob := { name := name, pendingInvocation := true }
    (some newJob, newJob :: registry)

/- ===== Helper lemmas ===== -/

/-- A pointwise property is preserved by `mapSet` when the new entry also
satisfies it. -/
lemma mapSet_forall {P : String × Student → Prop} {m : List (String × Student)}
    {k : String} {v : Student} (hm : ∀ p ∈ m, P p) (hv : P (k, v)) :
    ∀ p ∈ mapSet m k v, P p := by
  intro p hp
  unfold mapSet at hp
  split at hp
  · obtain ⟨q, hq, hqe⟩ := List.mem_map.mp hp
    by_cases h : q.1 = k
    · rw [if_pos h] at hqe
      exact hqe ▸ hv
    · rw [if_neg h] at hqe
      exact hqe ▸ hm q hq
  · rcases List.mem_append.mp hp with h | h
    · exact hm p h
    · rw [List.mem_singleton] at h
      exact h ▸ hv

/-- Every entry of `buildStudentMap` is keyed by the lower-cased full name of
the student it stores. -/
lemma buildStudentMap_key (students : List Student) :
    ∀ p ∈ buildStudentMap students, p.1 = jsToLowerCase p.2.fullName := by
  suffices h : ∀ (m : List (String × Student)),
      (∀ p ∈ m, p.1 = jsToLowerCase p.2.fullName) →
      ∀ p ∈ students.foldl (fun m s => mapSet m (jsToLowerCase s.fullName) s) m,
        p.1 = jsToLowerCase p.2.fullName by
    exact h [] (by intro p hp; cases hp)
  induction students with
  | nil =>
    intro m hm
    simpa using hm
  | cons s rest ih =>
    intro m hm
    simp only [List.foldl_cons]
    exact ih _ (mapSet_forall hm rfl)

/-- Membership in `deleteActors`: kept iff present and not matched by any
actor name. -/
lemma mem_deleteActors {m : List (String × Student)} {actors : List String}
    {p : String × Student} :
    p ∈ deleteActors m actors ↔ p ∈ m ∧ p.1 ∉ actors := by
  simp [deleteActors, List.mem_filter]

/- ===== C1 ===== -/

/-- Roster member used in the C1 counterexample. -/
def aliceC1 : Student := ⟨1, "S1", "Alice", "Smith", "Alice Smith", "Present"⟩

/-- Door log used in the C1 counterexample: the actor's stable identifiers
(`id = "X9"`, `alternate_id = "A9"`) differ from the member's stable external
identifier `"S1"`, but the display name coincides. -/
def logC1 : DoorLog := ⟨⟨"X9", "A9", "Alice Smith"⟩⟩

/-- C1 (counterexample): the claim says a roster member is removed from the
`AbsentSet` iff some scan actor's stable id equals the member's stable id,
display names playing no role.  On the code the member `aliceC1` is removed
(counted present) although no actor identifier equals her stable external
identifier: the join is by lower-cased display name, so the claimed
equivalence is false at this input. -/
theorem c1_id_matching_counterexample :
    ("alice smith", aliceC1) ∈ buildStudentMap [aliceC1] ∧
    ("alice smith", aliceC1) ∉ absentSetAfterRun [aliceC1] [logC1] ∧
    (∀ l ∈ [logC1], ¬ l.actor.id = aliceC1.externalId) ∧
    (∀ l ∈ [logC1], ¬ l.actor.alternate_id = aliceC1.externalId) := by
  decide

/-- C1 (amended): the window-close evaluation joins roster members with
scan-event actors by lower-cased display name: a roster member is removed
from the `AbsentSet` (counted present) iff some scan event in the window has
an actor whose lower-cased display name equals the member's lower-cased full
name; stable identifiers play no role in the match. -/
theorem c1_name_matching (students : List Student) (logs : List DoorLog)
    (k : String) (s : Student) (h : (k, s) ∈ buildStudentMap students) :
    (k, s) ∉ absentSetAfterRun students logs ↔
      ∃ l ∈ logs,
        jsToLowerCase l.actor.display_name = jsToLowerCase s.fullName := by
  have hk : k = jsToLowerCase s.fullName := buildStudentMap_key students (k, s) h
  rw [absentSetAfterRun]
  constructor
  · intro hno
    have hkin : k ∈ actorNames logs := by
      by_contra hno2
      exact hno (mem_deleteActors.mpr ⟨h, hno2⟩)
    obtain ⟨l, hl, he⟩ := List.mem_map.mp hkin
    exact ⟨l, hl, by rw [he, ← hk]⟩
  · rintro ⟨l, hl, he⟩ hmem
    have hkin : k ∈ actorNames logs :=
      List.mem_map.mpr ⟨l, hl, by rw [he, ← hk]⟩
    exact (mem_deleteActors.mp hmem).2 hkin

/-- C1 (witness): the amended matching equivalence evaluated at a concrete
roster and scan batch. -/
theorem c1_name_matching_witness :
    ("alice smith", aliceC1) ∈ buildStudentMap [aliceC1] ∧
    (("alice smith", aliceC1) ∉ absentSetAfterRun [aliceC1] [logC1] ↔
      ∃ l ∈ [logC1],
        jsToLowerCase l.actor.display_name = jsToLowerCase aliceC1.fullName) :=
  ⟨by decide, c1_name_matching [aliceC1] [logC1] "alice smith" aliceC1 (by decide)⟩

/- ===== C2 ===== -/

/-- C2: contrary to the claim that an HTTP 500 response is retried (with a
1–3 s backoff, up to 3 times), the interceptor surfaces the error at once on
a fresh request: the `_retry500` counter is never initialized, and the
JavaScript comparison `undefined < 3` is false, so the 500 branch is never
taken.  The quantifiers range over the `retry-after` header value and the
drawn random number. -/
theorem c2_500_not_retried (retryAfterHeader rand : Nat) :
    errorInterceptor 500 freshRequest retryAfterHeader rand =
      InterceptorAction.surfaceError := by
  simp [errorInterceptor, freshRequest, jsLtNat]

/- ===== C3 ===== -/

/-- Absent roster member used in the C3 evaluation. -/
def bobC3 : Student := ⟨2, "S2", "Bob", "Smith", "Bob Smith", "Absent"⟩

/-- Door log used in the C3 evaluation. -/
def logC3 : DoorLog := ⟨⟨"Y1", "B1", "Bob Smith"⟩⟩

/-- C3: the sweep tick removes a matched member from the `AbsentSet`, but the
attendance write it issues uses `StudentAttendanceType.Present`, not
`LateArrival` as the claim states: `handleLateArrivals` calls
`markStudents(StudentAttendanceType.Present, present)`. -/
theorem c3_sweep_writes_present_status :
    (∀ (absent : List (String × Student)) (logs : List DoorLog),
      (handleLateArrivals absent logs).markCall.type =
        StudentAttendanceType.Present) ∧
    (handleLateArrivals [("bob smith", bobC3)] [logC3]).markCall =
      ⟨StudentAttendanceType.Present, [bobC3]⟩ ∧
    (handleLateArrivals [("bob smith", bobC3)] [logC3]).absent = [] ∧
    StudentAttendanceType.Present ≠ StudentAttendanceType.LateArrival :=
  ⟨fun _ _ => rfl, by decide, by decide, by decide⟩

/- ===== C5 ===== -/

/-- A cached bus-route dismissal change (`studentChangeType =
StudentChangeType.Bus = 6`). -/
def busCachedC5 : CachedChange :=
  ⟨⟨1, 10, some 7, "Bus to Main St", false, 42, StudentChangeType.Bus⟩,
   some ⟨StudentChangeType.Bus, "route notes", 7⟩⟩

/-- A cached change whose `studentChangeType` is `0` — not any member of the
`StudentChangeType` enum. -/
def zeroCachedC5 : CachedChange :=
  ⟨⟨1, 10, some 7, "type zero", false, 42, 0⟩, none⟩

/-- C5: the restoration gate of `markStudents` tests
`studentChangeType in [StudentChangeType.Bus]`, and the JavaScript `in`
operator on an array checks *index* membership, so the gate is true exactly
when the change type is `0` — never for an actual bus-route change (type 6).
A cached bus change therefore does not trigger restoration on a transition
away from Absent, contradicting the claim (and the source's own comment that
the patching "works for ... bus"). -/
theorem c5_bus_gate_never_fires :
    busCachedC5.change.studentChangeType = StudentChangeType.Bus ∧
    restorationGate StudentAttendanceType.Present (some busCachedC5) = false ∧
    restorationGate StudentAttendanceType.LateArrival (some busCachedC5) = false ∧
    restorationGate StudentAttendanceType.Present (some zeroCachedC5) = true := by
  decide

/- ===== C4 ===== -/

/-- C4: when the computed present count is strictly below the threshold,
`runAttendance` issues no attendance write call and schedules no late-arrival
sweep job. -/
theorem c4_below_threshold_no_action (threshold : Nat)
    (students : List Student) (logs : List DoorLog)
    (h : presentCount students logs < threshold) :
    runAttendance threshold students logs =
      { markCalls := [], sweepScheduled := false } := by
  simp [runAttendance, h]

/-- Roster member used in the C4 witness. -/
def aliceC4 : Student := ⟨3, "S3", "Ann", "Lee", "Ann Lee", "Present"⟩

/-- C4 (witness): with one roster member, no scans and threshold 2, the
present count is 0 and the run takes no action. -/
theorem c4_below_threshold_no_action_witness :
    presentCount [aliceC4] [] < 2 ∧
    runAttendance 2 [aliceC4] [] =
      { markCalls := [], sweepScheduled := false } :=
  ⟨by decide, c4_below_threshold_no_action 2 [aliceC4] [] (by decide)⟩

/- ===== C6 ===== -/

/-- C6: `markStudents` is idempotent per member: a member already in the
target status yields the locally resolved "already marked" promise (never a
remote write), that promise settles fulfilled, and the returned `MarkResult`
counts at least one success for it. -/
theorem c6_mark_idempotent_per_member (dryRun : Bool) (oracle : Nat → Bool)
    (type : StudentAttendanceType) (students : List Student) (s : Student)
    (hmem : s ∈ students) (hstat : s.attendanceStatus = type.toStr) :
    markAction dryRun type s = StudentPromise.alreadyMarked ∧
    (∀ t sid, markAction dryRun type s ≠ StudentPromise.write t sid) ∧
    settlePromise oracle (markAction dryRun type s) = true ∧
    0 < (markStudents dryRun oracle type students).success := by
  have ha : markAction dryRun type s = .alreadyMarked := by
    rw [markAction, if_pos hstat]
  refine ⟨ha, ?_, ?_, ?_⟩
  · intro t sid heq
    rw [ha] at heq
    exact StudentPromise.noConfusion heq
  · rw [ha]
    rfl
  · have htrue :
        true ∈ (markPromises dryRun type students).map (settlePromise oracle) := by
      refine List.mem_map.mpr ⟨markAction dryRun type s, ?_, by rw [ha]; rfl⟩
      exact List.mem_map.mpr ⟨s, hmem, rfl⟩
    simpa [markStudents] using List.count_pos_iff.mpr htrue

/-- Member used in the C6 witness: already Absent. -/
def carlC6 : Student := ⟨4, "S4", "Carl", "Mora", "Carl Mora", "Absent"⟩

/-- C6 (witness): marking an already-Absent member Absent again (non-dry-run,
with an upstream that would reject every write) yields the short-circuit
promise and a positive success count. -/
theorem c6_mark_idempotent_per_member_witness :
    carlC6 ∈ [carlC6] ∧
    carlC6.attendanceStatus = StudentAttendanceType.Absent.toStr ∧
    (markAction false StudentAttendanceType.Absent carlC6 =
        StudentPromise.alreadyMarked ∧
      (∀ t sid, markAction false StudentAttendanceType.Absent carlC6 ≠
        StudentPromise.write t sid) ∧
      settlePromise (fun _ => false)
        (markAction false StudentAttendanceType.Absent carlC6) = true ∧
      0 < (markStudents false (fun _ => false)
        StudentAttendanceType.Absent [carlC6]).success) :=
  ⟨by decide, by decide,
    c6_mark_idempotent_per_member false (fun _ => false)
      StudentAttendanceType.Absent [carlC6] carlC6 (by decide) (by decide)⟩

/- ===== C7 ===== -/

/-- `mapGet m k = some s` means the entry `(k, s)` is in the map. -/
lemma mapGet_mem {m : List (String × Student)} {k : String} {s : Student}
    (h : mapGet m k = some s) : (k, s) ∈ m := by
  rw [mapGet] at h
  cases hf : m.find? (fun p => p.1 = k) with
  | none => rw [hf] at h; cases h
  | some q =>
    rw [hf] at h
    have hq : q ∈ m := List.mem_of_find?_eq_some hf
    have hk : q.1 = k := by
      have := List.find?_some hf
      simpa using this
    have hs : q.2 = s := by simpa using h
    have : q = (k, s) := Prod.ext hk hs
    exact this ▸ hq

/-- The remaining absent map after `lateArrivalLoop` is a sub-collection of
the input map. -/
lemma lateArrivalLoop_absent_sub (actors : List String) :
    ∀ (m : List (String × Student)) (p : String × Student),
      p ∈ (lateArrivalLoop actors m).2 → p ∈ m := by
  induction actors with
  | nil =>
    intro m p hp
    exact hp
  | cons a rest ih =>
    intro m p hp
    simp only [lateArrivalLoop] at hp
    cases hg : mapGet m a with
    | some s =>
      rw [hg] at hp
      simp only at hp
      have := ih (mapDelete m a) p hp
      exact (List.mem_filter.mp this).1
    | none =>
      rw [hg] at hp
      exact ih m p hp

/-- Every student promoted by `lateArrivalLoop` comes from an entry of the
input absent map. -/
lemma lateArrivalLoop_promoted_mem (actors : List String) :
    ∀ (m : List (String × Student)) (s : Student),
      s ∈ (lateArrivalLoop actors m).1 → ∃ k, (k, s) ∈ m := by
  induction actors with
  | nil =>
    intro m s hs
    cases hs
  | cons a rest ih =>
    intro m s hs
    simp only [lateArrivalLoop] at hs
    cases hg : mapGet m a with
    | some s0 =>
      rw [hg] at hs
      simp only [List.mem_cons] at hs
      rcases hs with hs | hs
      · exact ⟨a, hs ▸ mapGet_mem hg⟩
      · obtain ⟨k, hk⟩ := ih (mapDelete m a) s hs
        exact ⟨k, (List.mem_filter.mp hk).1⟩
    | none =>
      rw [hg] at hs
      exact ih m s hs

/-- C7: across a whole run of sweep ticks the `AbsentSet` only shrinks: every
surviving entry was already in the initial set (so nothing is ever re-added),
a member absent from the set never reappears at any later tick, and each
tick only promotes students that are still in its current absent map. -/
theorem c7_absent_set_monotone (batches : List (List DoorLog))
    (absent : List (String × Student)) (p : String × Student) :
    (p ∈ sweepAbsent absent batches → p ∈ absent) ∧
    (p ∉ absent → p ∉ sweepAbsent absent batches) ∧
    (∀ (logs : List DoorLog) (s : Student),
      s ∈ (handleLateArrivals absent logs).promoted → ∃ k, (k, s) ∈ absent) := by
  have hmain : ∀ (ab : List (String × Student)),
      p ∈ sweepAbsent ab batches → p ∈ ab := by
    induction batches with
    | nil =>
      intro ab h
      exact h
    | cons b rest ih =>
      intro ab h
      rw [sweepAbsent] at h
      have habs := ih _ h
      exact lateArrivalLoop_absent_sub _ ab p habs
  refine ⟨hmain absent, fun hn hin => hn (hmain absent hin), ?_⟩
  intro logs s hs
  exact lateArrivalLoop_promoted_mem _ absent s hs

/-- Entry used in the C7 witness. -/
def bobC7 : Student := ⟨5, "S5", "Bo", "Park", "Bo Park", "Absent"⟩

/-- C7 (witness): a member not in the absent set stays out of it across a
two-tick sweep, and promotions at a tick come from the current set. -/
theorem c7_absent_set_monotone_witness :
    ("zed zee", bobC7) ∉ [("bo park", bobC7)] ∧
    ("zed zee", bobC7) ∉ sweepAbsent [("bo park", bobC7)] [[], [logC3]] :=
  ⟨by decide,
    (c7_absent_set_monotone [[], [logC3]] [("bo park", bobC7)]
      ("zed zee", bobC7)).2.1 (by decide)⟩

/- ===== C8 ===== -/

/-- Counting `true`s and `false`s in a boolean list partitions its length. -/
lemma count_true_add_count_false (l : List Bool) :
    l.count true + l.count false = l.length := by
  induction l with
  | nil => rfl
  | cons b t ih =>
    cases b <;> simp [List.count_cons] <;> omega

/-- C8: every `MarkResult` returned by `markStudents` satisfies
`success + failure = total` with `total` the number of supplied members (each
member's settled promise lands in exactly one of the two tallies), and the
promise pushed for each member is decided by that member alone — the outcome
oracle (some other member's failure) never changes which promises are
pushed. -/
theorem c8_markresult_partition (dryRun : Bool) (oracle : Nat → Bool)
    (type : StudentAttendanceType) (students : List Student) :
    (markStudents dryRun oracle type students).success +
        (markStudents dryRun oracle type students).failure =
      (markStudents dryRun oracle type students).total ∧
    (markStudents dryRun oracle type students).total = students.length ∧
    markPromises dryRun type students = students.map (markAction dryRun type) := by
  refine ⟨?_, ?_, rfl⟩
  · exact count_true_add_count_false
      ((markPromises dryRun type students).map (settlePromise oracle))
  · simp [markStudents, markPromises]

/- ===== C9 ===== -/

/-- C9: a `scheduleJob` call for a name whose registered job still has a
pending invocation returns `null` and leaves the registry untouched — the
first job is neither cancelled nor replaced — and therefore a registry whose
names are pairwise distinct stays pairwise distinct, so at most one job
instance per name can hold a pending invocation. -/
theorem c9_schedule_duplicate_returns_null (registry : List SchedJob)
    (name : String) (j : SchedJob)
    (hfind : registry.find? (fun j2 => j2.name = name) = some j)
    (hpend : j.pendingInvocation = true) :
    scheduleJobModel registry name = (none, registry) ∧
    (List.Pairwise (fun a b => a.name ≠ b.name) registry →
      List.Pairwise (fun a b => a.name ≠ b.name)
        (scheduleJobModel registry name).2) := by
  have h : scheduleJobModel registry name = (none, registry) := by
    rw [scheduleJobModel, hfind]
    simp [hpend]
  exact ⟨h, fun hp => h ▸ hp⟩

/-- Job used in the C9 witness. -/
def jobC9 : SchedJob := ⟨"Late Arrivals Handler", true⟩

/-- C9 (witness): scheduling a second "Late Arrivals Handler" job while the
first still has a pending invocation returns `null` and leaves the registry
as it was. -/
theorem c9_schedule_duplicate_returns_null_witness :
    ([jobC9].find? (fun j2 => j2.name = "Late Arrivals Handler") = some jobC9) ∧
    jobC9.pendingInvocation = true ∧
    scheduleJobModel [jobC9] "Late Arrivals Handler" = (none, [jobC9]) :=
  ⟨by decide, by decide,
    (c9_schedule_duplicate_returns_null [jobC9] "Late Arrivals Handler" jobC9
      (by decide) (by decide)).1⟩

/- ===== C10 ===== -/

/-- C10: `getDoorLogs` pagination.  When the first page's response has no
pagination object, or reports a total of at most the page size (50), the
result is exactly the first page's hits and page 1 is the only page
requested.  Otherwise the result is the first page's hits followed by the
hits of pages `2 .. ceil(total/50)` — that is, `ceil(total/50) - 1` further
pages. -/
theorem c10_getDoorLogs_pagination (server : Nat → List DoorLog)
    (firstTotal : Option Nat) :
    ((firstTotal = none ∨ ∃ t, firstTotal = some t ∧ t ≤ 50) →
      getDoorLogs server firstTotal = server 1 ∧
      requestedPages firstTotal = [1]) ∧
    (∀ t, firstTotal = some t → 50 < t →
      getDoorLogs server firstTotal =
        server 1 ++ (List.range' 2 ((t + 49) / 50 - 1)).flatMap server ∧
      (List.range' 2 ((t + 49) / 50 - 1)).length = (t + 49) / 50 - 1 ∧
      requestedPages firstTotal = 1 :: List.range' 2 ((t + 49) / 50 - 1)) := by
  constructor
  · rintro (rfl | ⟨t, rfl, ht⟩)
    · simp [getDoorLogs, requestedPages, extraPageNums]
    · have h0 : (t + 49) / 50 + 1 - 2 = 0 := by omega
      simp [getDoorLogs, requestedPages, extraPageNums, h0]
  · rintro t rfl ht
    have h1 : (t + 49) / 50 + 1 - 2 = (t + 49) / 50 - 1 := by omega
    refine ⟨?_, ?_, ?_⟩
    · simp [getDoorLogs, extraPageNums, h1]
    · simp [List.length_range']
    · simp [requestedPages, extraPageNums, h1]

/-- Upstream oracle used in the C10 witness: every page responds with the
same single hit. -/
def serverC10 : Nat → List DoorLog := fun _ => [logC1]

/-- C10 (witness): a reported total of 120 (over the cap of 50) makes
`getDoorLogs` fetch pages 2 and 3 after page 1: `ceil(120/50) - 1 = 2`
further pages. -/
theorem c10_getDoorLogs_pagination_witness :
    (50 < 120) ∧
    (getDoorLogs serverC10 (some 120) =
      serverC10 1 ++ (List.range' 2 ((120 + 49) / 50 - 1)).flatMap serverC10 ∧
    (List.range' 2 ((120 + 49) / 50 - 1)).length = (120 + 49) / 50 - 1 ∧
    requestedPages (some 120) = 1 :: List.range' 2 ((120 + 49) / 50 - 1)) :=
  ⟨by decide,
    (c10_getDoorLogs_pagination serverC10 (some 120)).2 120 rfl (by decide)⟩

end UnifiAttendance
